import Mathlib

/-!
Verification of the name-matching core of the tax-document application
(`lib/name-validation.ts`): `extractNamesFromDocument`, `validateNames`,
`buildProfileNamesList` and `compareNames`, shallowly embedded over
`List Char` / `String`.  JavaScript strings are modelled as Lean strings,
JS numbers arising here are non-negative integers (modelled as `Nat`;
the half-point "matching parts" accumulator is kept in half-units so that
`Math.round` becomes exact natural arithmetic), and the dynamically typed
`extractedData` argument is modelled by the inductive `JSVal`.
-/

/-- Whitespace characters recognised by the embedding of JS `trim` /
regex `\s` (the ASCII subset, which is what the application's inputs use). -/
def isWhitespace (c : Char) : Bool :=
  c = ' ' || c = '\t' || c = '\n' || c = '\r' || c = '\x0c' || c = '\x0b'

/-- Embedding of `String.prototype.trim`: drop leading and trailing
whitespace. -/
def jsTrim (s : String) : String :=
  String.mk (((s.toList.dropWhile isWhitespace).reverse.dropWhile isWhitespace).reverse)

/-- Embedding of `String.prototype.toLowerCase` on one character
(Latin subset, which is all that survives the normalisation regex). -/
def lowerChar (c : Char) : Char :=
  if 'A' ≤ c ∧ c ≤ 'Z' then Char.ofNat (c.toNat + 32) else c

/-- A character kept by the regex replace `[^a-z\s] → ''` (applied after
lowercasing): a lowercase Latin letter or whitespace. -/
def keepChar (c : Char) : Bool :=
  ('a' ≤ c && c ≤ 'z') || isWhitespace c

/-- Embedding of the regex replace `\s+ → ' '`: collapse every maximal run
of whitespace characters to a single space. -/
def collapseWS : List Char → List Char
  | [] => []
  | [c] => [if isWhitespace c then ' ' else c]
  | c :: c' :: cs =>
    if isWhitespace c && isWhitespace c' then collapseWS (c' :: cs)
    else (if isWhitespace c then ' ' else c) :: collapseWS (c' :: cs)

/-- The `normalizeString` helper inside `compareNames`: lowercase, strip
every character outside `[a-z\s]`, collapse whitespace runs, trim. -/
def normalizeString (s : String) : String :=
  String.mk (((((s.toList.map lowerChar).filter keepChar) |> collapseWS)
    |>.dropWhile isWhitespace).reverse.dropWhile isWhitespace).reverse

/-- Embedding of `String.prototype.split(' ')`: cut at every single space
character. -/
def splitOnSpace (s : String) : List String :=
  go s.toList []
where
  go : List Char → List Char → List String
  | [], acc => [String.mk acc.reverse]
  | c :: cs, acc =>
    if c = ' ' then String.mk acc.reverse :: go cs [] else go cs (c :: acc)

/-- Result record of `compareNames` (`{ score, reason }`). -/
structure MatchResult where
  score : Nat
  reason : String
  deriving Repr, DecidableEq

/-- Token lists used by the scoring stage of `compareNames`: split the
normalized name on spaces and keep only parts of length `> 1`. -/
def nameParts (normalized : String) : List String :=
  (splitOnSpace normalized).filter (fun part => 1 < part.length)

/-- The half-unit "matching parts" accumulator of `compareNames`
(`matchingParts` in the source, which counts in steps of `0.5`; here
scaled by 2 so it is a natural number): `+2` when the first tokens agree,
`+2` when both lists have a last name (more than one token) and the last
tokens agree, `+1` for every pair of equal middle tokens, counted over all
pairs without deduplication. -/
def matchingHalves (docParts profileParts : List String) : Nat :=
  (if docParts.headD "" = profileParts.headD "" then 2 else 0)
  + (if 1 < docParts.length ∧ 1 < profileParts.length ∧
        docParts.getLastD "" = profileParts.getLastD "" then 2 else 0)
  + ((docParts.drop 1).dropLast.map
      (fun t => (((profileParts.drop 1).dropLast).filter (fun u => u = t)).length)).sum

/-- `Math.round (x)` for the non-negative rational `x = num / den`:
`⌊x + 1/2⌋ = (2·num + den) / (2·den)` in natural division.  JS rounds
halves toward `+∞`, which for non-negative arguments is exactly this. -/
def jsRoundDiv (num den : Nat) : Nat :=
  (2 * num + den) / (2 * den)

/-- The score the token stage of `compareNames` computes:
`Math.round (matchingParts / min (|docParts|) (|profileParts|) * 100)`
capped at `100`, with `matchingParts = matchingHalves / 2`. -/
def tokenScore (docParts profileParts : List String) : Nat :=
  min (jsRoundDiv (matchingHalves docParts profileParts * 50)
        (min docParts.length profileParts.length)) 100

/-- The threshold-derived `reason` label of `compareNames` (the earlier
`"x of y name parts match"` template string in the source is dead: it is
unconditionally overwritten by this chain). -/
def scoreReason (score : Nat) : String :=
  if 90 ≤ score then "Strong name match"
  else if 70 ≤ score then "Good name match"
  else if 50 ≤ score then "Partial name match"
  else if 30 ≤ score then "Weak name match"
  else "Names do not match"

/-- Embedding of `compareNames` from `lib/name-validation.ts`.  The
`typeof` guards of the source are vacuous here because the embedding is
typed; the JS falsiness test `!docName` on a string is `docName = ""`. -/
def compareNames (docName profileName : String) : MatchResult :=
  if docName = "" ∨ profileName = "" then
    ⟨0, "Invalid name types for comparison"⟩
  else
    let trimmedDocName := jsTrim docName
    let trimmedProfileName := jsTrim profileName
    if trimmedDocName = "" ∨ trimmedProfileName = "" then
      ⟨0, "Empty name comparison after trimming"⟩
    else
      let docNormalized := normalizeString trimmedDocName
      let profileNormalized := normalizeString trimmedProfileName
      if docNormalized = "" ∨ profileNormalized = "" then
        ⟨0, "Failed to normalize names"⟩
      else if docNormalized = profileNormalized then
        ⟨100, "Exact name match"⟩
      else
        let docParts := nameParts docNormalized
        let profileParts := nameParts profileNormalized
        if docParts = [] ∨ profileParts = [] then
          ⟨0, "No valid name parts found"⟩
        else
          let score := tokenScore docParts profileParts
          ⟨score, scoreReason score⟩

/-- Model of the dynamically typed JavaScript value passed to
`extractNamesFromDocument` as `extractedData : any`.  An object carries
the three fields the function reads (a missing field is `undef`). -/
inductive JSVal where
  | null
  | undef
  | boolV (b : Bool)
  | numV (n : Int)
  | strV (s : String)
  | objV (employeeName recipientName employerName : JSVal)
  deriving Repr, DecidableEq

/-- JS truthiness of a `JSVal` (`NaN` is not representable here; the
strings and numbers the application produces do not involve it). -/
def JSVal.truthy : JSVal → Bool
  | .null => false
  | .undef => false
  | .boolV b => b
  | .numV n => n ≠ 0
  | .strV s => s ≠ ""
  | .objV _ _ _ => true

/-- `typeof v === 'string'`. -/
def JSVal.isStr : JSVal → Bool
  | .strV _ => true
  | _ => false

/-- `typeof v === 'object' && v` (JS `typeof null` is `'object'`, but
`null` is falsy, so the source's combined guard admits exactly the
non-null objects). -/
def JSVal.isObj : JSVal → Bool
  | .objV _ _ _ => true
  | _ => false

/-- The underlying string of a string value (only read under an `isStr`
guard in the source). -/
def JSVal.getStr : JSVal → String
  | .strV s => s
  | _ => ""

/-- Embedding of `extractNamesFromDocument`: collect the trimmed
`employeeName` and `recipientName` when present (truthy) and of string
type, include `employerName` only when `employeeName` is falsy, then
filter out names that are empty or blank after trimming. -/
def extractNamesFromDocument (extractedData : JSVal) : List String :=
  if extractedData.isObj = false then []
  else
    match extractedData with
    | .objV employeeName recipientName employerName =>
      let names : List String :=
        (if employeeName.truthy && employeeName.isStr then [jsTrim employeeName.getStr] else [])
        ++ (if recipientName.truthy && recipientName.isStr then [jsTrim recipientName.getStr] else [])
        ++ (if employerName.truthy && employerName.isStr && !employeeName.truthy
            then [jsTrim employerName.getStr] else [])
      names.filter (fun name => name ≠ "" && jsTrim name ≠ "")
    | _ => []

/-- The `profileNames` argument of `validateNames`: four optional string
fields (`undefined` modelled as `none`). -/
structure ProfileNames where
  firstName : Option String
  lastName : Option String
  spouseFirstName : Option String
  spouseLastName : Option String
  deriving Repr, DecidableEq

/-- The defaulted profile object `safeProfileNames` built at the top of
`validateNames` (`field || ''`; for an optional string field this is
`getD ""`, since `"" || ''` is `''`). -/
structure SafeProfileNames where
  firstName : String
  lastName : String
  spouseFirstName : String
  spouseLastName : String
  deriving Repr, DecidableEq

/-- `safeProfileNames` from `validateNames`. -/
def safeProfile (profileNames : ProfileNames) : SafeProfileNames :=
  ⟨profileNames.firstName.getD "", profileNames.lastName.getD "",
   profileNames.spouseFirstName.getD "", profileNames.spouseLastName.getD ""⟩

/-- Embedding of `buildProfileNamesList`: push the trimmed
`firstName + " " + lastName` when non-empty, then the trimmed
`spouseFirstName + " " + spouseLastName` when non-empty. -/
def buildProfileNamesList (profileNames : SafeProfileNames) : List String :=
  let primaryName := jsTrim (profileNames.firstName ++ " " ++ profileNames.lastName)
  let spouseName := jsTrim (profileNames.spouseFirstName ++ " " ++ profileNames.spouseLastName)
  (if 0 < primaryName.length then [primaryName] else [])
  ++ (if 0 < spouseName.length then [spouseName] else [])

/-- The mutable `bestMatch` record of the scanning loop in
`validateNames`. -/
structure BestMatch where
  score : Nat
  primaryMatch : Bool
  spouseMatch : Bool
  reason : String
  deriving Repr, DecidableEq

/-- One iteration of the inner (profile-index) loop of `validateNames`:
skip falsy names, and replace the best match only on a strictly greater
score, recording `primaryMatch := (i = 0)` and `spouseMatch := (i = 1)`. -/
def stepProfile (docName : String) (best : BestMatch) (ip : Nat × String) : BestMatch :=
  if ip.2 = "" then best
  else
    let matchResult := compareNames docName ip.2
    if best.score < matchResult.score then
      ⟨matchResult.score, decide (ip.1 = 0), decide (ip.1 = 1), matchResult.reason⟩
    else best

/-- One iteration of the outer (document-name) loop of `validateNames`. -/
def stepDoc (profileNamesList : List String) (best : BestMatch) (docName : String) : BestMatch :=
  if docName = "" then best
  else profileNamesList.enum.foldl (stepProfile docName) best

/-- The double loop of `validateNames`, starting from
`{score: 0, primaryMatch: false, spouseMatch: false, reason: ''}`. -/
def bestMatchScan (documentNames profileNamesList : List String) : BestMatch :=
  documentNames.foldl (stepDoc profileNamesList) ⟨0, false, false, ""⟩

/-- The `matches` field of a validation result (named `matches'` here because `matches` is reserved in Lean). -/
structure NameValidationMatches where
  primaryTaxpayer : Bool
  spouse : Bool
  deriving Repr, DecidableEq

/-- The `details` field of a validation result. -/
structure NameValidationDetails where
  documentNames : List String
  profileNames : List String
  reason : String
  deriving Repr, DecidableEq

/-- The `NameValidationResult` interface. -/
structure NameValidationResult where
  isValid : Bool
  confidence : Nat
  matches' : NameValidationMatches
  details : NameValidationDetails
  deriving Repr, DecidableEq

/-- Embedding of `validateNames`.  `documentNames` is a list (the
`Array.isArray` guard of the source is vacuous under typing); the two
early returns and the `bestMatch.score >= 70` validity cutoff follow the
source. -/
def validateNames (profileNames : ProfileNames) (documentNames : List String) :
    NameValidationResult :=
  let safeNames := safeProfile profileNames
  if documentNames = [] then
    ⟨false, 0, ⟨false, false⟩,
     ⟨documentNames, buildProfileNamesList safeNames, "No names found in document"⟩⟩
  else
    let profileNamesList := buildProfileNamesList safeNames
    if profileNamesList = [] ∨ profileNamesList.all (fun name => jsTrim name = "") then
      ⟨false, 0, ⟨false, false⟩,
       ⟨documentNames, profileNamesList, "No names in tax return profile"⟩⟩
    else
      let best := bestMatchScan documentNames profileNamesList
      ⟨decide (70 ≤ best.score), best.score, ⟨best.primaryMatch, best.spouseMatch⟩,
       ⟨documentNames, profileNamesList, best.reason⟩⟩

/-- The middle tokens of a token list: everything strictly between the
first and the last token (the index ranges `1 .. length-2` of the two
nested middle-name loops in `compareNames`). -/
def middleTokens (tokens : List String) : List String :=
  (tokens.drop 1).dropLast

/-- Modelled from the claim wording for the token-scoring stage (C1), to
be compared with the score computed by `compareNames`: matching parts
(kept in half-units) are `+1` for equal first tokens, `+1` for equal last
tokens when both lists have more than one token, and `+0.5` for every
pair of equal middle tokens over the all-pairs product without
deduplication; the score is `round (matchingParts / min |A| |B| * 100)`
clamped to at most 100. -/
def claimedTokenStageScore (tokensA tokensB : List String) : Nat :=
  let halves :=
    (if tokensA.headD "" = tokensB.headD "" then 2 else 0)
    + (if 1 < tokensA.length ∧ 1 < tokensB.length ∧
          tokensA.getLastD "" = tokensB.getLastD "" then 2 else 0)
    + ((middleTokens tokensA).product (middleTokens tokensB)).countP
        (fun pair => pair.1 = pair.2)
  min (jsRoundDiv (halves * 50) (min tokensA.length tokensB.length)) 100

/-! Auxiliary lemmas. -/

/-- Trimming the empty string gives the empty string. -/
lemma jsTrim_empty_string : jsTrim "" = "" := rfl

/-- Normalising the empty string gives the empty string. -/
lemma normalizeString_empty_string : normalizeString "" = "" := rfl

/-- When the first argument trims to the empty string, `compareNames`
returns score 0 (through one of its first two guards). -/
lemma compareNames_score_zero_left (a b : String) (h : jsTrim a = "") :
    (compareNames a b).score = 0 := by
  simp only [compareNames]
  split
  · rfl
  · rw [if_pos (Or.inl h)]

/-- When the second argument trims to the empty string, `compareNames`
returns score 0 (through one of its first two guards). -/
lemma compareNames_score_zero_right (a b : String) (h : jsTrim b = "") :
    (compareNames a b).score = 0 := by
  simp only [compareNames]
  split
  · rfl
  · rw [if_pos (Or.inr h)]

/-- When either argument trims to the empty string, `compareNames`
returns one of its two zero-score guard results. -/
lemma compareNames_blank (docName profileName : String)
    (h : jsTrim docName = "" ∨ jsTrim profileName = "") :
    compareNames docName profileName = ⟨0, "Invalid name types for comparison"⟩ ∨
    compareNames docName profileName = ⟨0, "Empty name comparison after trimming"⟩ := by
  by_cases hc : docName = "" ∨ profileName = ""
  · left
    simp only [compareNames]
    rw [if_pos hc]
  · right
    simp only [compareNames]
    rw [if_neg hc, if_pos h]

/-- A string has positive length exactly when it is not the empty
string. -/
lemma string_length_pos_iff (s : String) : 0 < s.length ↔ s ≠ "" := by
  obtain ⟨l⟩ := s
  cases l <;> simp [String.length, String.ext_iff]

/-- The all-pairs equality count over a product of token lists equals the
per-token sum of filtered match counts computed by the nested middle-name
loops of `compareNames`. -/
lemma countP_product_eq (ta tb : List String) :
    (ta.product tb).countP (fun pair => pair.1 = pair.2)
      = (ta.map (fun t => (tb.filter (fun u => u = t)).length)).sum := by
  induction ta with
  | nil => rfl
  | cons x xs ih =>
    have hprod : (x :: xs).product tb = (tb.map (Prod.mk x)) ++ xs.product tb := by
      simp [List.product, List.flatMap_cons]
    rw [hprod, List.countP_append, List.countP_map, ih, List.map_cons, List.sum_cons]
    congr 1
    rw [← List.countP_eq_length_filter]
    refine List.countP_congr ?_
    intro u _
    simp [Function.comp, eq_comm]

/-- The token-stage score of the source agrees with the score formula
stated by the claim wording. -/
lemma tokenScore_eq_claimed (ta tb : List String) :
    tokenScore ta tb = claimedTokenStageScore ta tb := by
  simp only [tokenScore, claimedTokenStageScore, matchingHalves, middleTokens,
    countP_product_eq]

/-! Claim theorems. -/

/-- C1: for every pair of names that reaches the token-scoring stage of
`compareNames` (both non-empty after trimming, normalisations non-empty
and distinct, token lists non-empty after dropping length-`≤ 1` tokens),
the returned score is `round (matchingParts / min |A| |B| * 100)` clamped
to at most 100, where `matchingParts` gains `+1` for equal first tokens,
`+1` for equal last tokens when both lists have more than one token, and
`+0.5` for every equal middle-token pair counted over all pairs without
deduplication. -/
theorem claim_C1 (docName profileName : String)
    (hta : jsTrim docName ≠ "") (htb : jsTrim profileName ≠ "")
    (hna : normalizeString (jsTrim docName) ≠ "")
    (hnb : normalizeString (jsTrim profileName) ≠ "")
    (hne : normalizeString (jsTrim docName) ≠ normalizeString (jsTrim profileName))
    (hpa : nameParts (normalizeString (jsTrim docName)) ≠ [])
    (hpb : nameParts (normalizeString (jsTrim profileName)) ≠ []) :
    (compareNames docName profileName).score =
      claimedTokenStageScore (nameParts (normalizeString (jsTrim docName)))
        (nameParts (normalizeString (jsTrim profileName))) := by
  have ha : docName ≠ "" := fun h => hta (by rw [h]; exact jsTrim_empty_string)
  have hb : profileName ≠ "" := fun h => htb (by rw [h]; exact jsTrim_empty_string)
  simp only [compareNames]
  rw [if_neg (by simp [ha, hb])]
  rw [if_neg (by simp [hta, htb])]
  rw [if_neg (by simp [hna, hnb])]
  rw [if_neg hne]
  rw [if_neg (by simp [hpa, hpb])]
  exact tokenScore_eq_claimed _ _

/-- Witness for C1 at the spec's own example `("Jon Smith", "John Smith")`:
the pair reaches the token stage and scores 50. -/
theorem claim_C1_witness :
    (compareNames "Jon Smith" "John Smith").score =
      claimedTokenStageScore (nameParts (normalizeString (jsTrim "Jon Smith")))
        (nameParts (normalizeString (jsTrim "John Smith"))) ∧
    (compareNames "Jon Smith" "John Smith").score = 50 :=
  ⟨claim_C1 "Jon Smith" "John Smith" (by decide) (by decide) (by decide) (by decide)
      (by decide) (by decide) (by decide), rfl⟩

/-- C2: for every profile and document-name list, the result of
`validateNames` satisfies `isValid = (confidence ≥ 70)`: the `isValid`
flag holds exactly when the best pairwise comparison score stored in
`confidence` is at least 70. -/
theorem claim_C2 (profileNames : ProfileNames) (documentNames : List String) :
    (validateNames profileNames documentNames).isValid =
      decide (70 ≤ (validateNames profileNames documentNames).confidence) := by
  simp only [validateNames]
  split
  · rfl
  · split
    · rfl
    · rfl

/-- C3, counterexample: both profile names score equally (0 against
`"Bob Zed"`), yet the result reports `primaryTaxpayer = false` — the
strict greater-than tracking never replaces the initial zero-score best
match, so an equal-score pair does not make the primary flag true as the
claim's consequent requires. -/
theorem claim_C3_counterexample :
    (compareNames "Bob Zed" "Alice Xu").score
      = (compareNames "Bob Zed" "Carol Yu").score ∧
    buildProfileNamesList (safeProfile ⟨some "Alice", some "Xu", some "Carol", some "Yu"⟩)
      = ["Alice Xu", "Carol Yu"] ∧
    (validateNames ⟨some "Alice", some "Xu", some "Carol", some "Yu"⟩
        ["Bob Zed"]).matches'.primaryTaxpayer = false :=
  ⟨rfl, rfl, rfl⟩

/-- C3, amended: the best pair is tracked with a strict greater-than
comparison, so when the primary (index 0) and spouse (index 1) profile
names score equally against the document name with a positive score —
here stated for a single-element document list, so that no other pair can
hold the best slot — the first-found pair wins and the result reports
`primaryTaxpayer = true` and `spouse = false`. -/
theorem claim_C3 (profileNames : ProfileNames) (d a b : String)
    (hlist : buildProfileNamesList (safeProfile profileNames) = [a, b])
    (heq : (compareNames d a).score = (compareNames d b).score)
    (hpos : 0 < (compareNames d a).score) :
    (validateNames profileNames [d]).matches'.primaryTaxpayer = true ∧
    (validateNames profileNames [d]).matches'.spouse = false := by
  have hta : jsTrim a ≠ "" := fun h => by
    rw [compareNames_score_zero_right d a h] at hpos; exact absurd hpos (lt_irrefl 0)
  have htb : jsTrim b ≠ "" := fun h => by
    rw [heq, compareNames_score_zero_right d b h] at hpos; exact absurd hpos (lt_irrefl 0)
  have ha : a ≠ "" := fun h => hta (by rw [h]; exact jsTrim_empty_string)
  have hb : b ≠ "" := fun h => htb (by rw [h]; exact jsTrim_empty_string)
  have hd : d ≠ "" := fun h => by
    rw [h, compareNames_score_zero_left "" a jsTrim_empty_string] at hpos
    exact absurd hpos (lt_irrefl 0)
  simp only [validateNames, hlist]
  rw [if_neg (by simp : ¬([d] = []))]
  rw [if_neg (by simp [hta] :
    ¬([a, b] = [] ∨ ([a, b].all fun name => decide (jsTrim name = "")) = true))]
  simp only [bestMatchScan, List.foldl, stepDoc, if_neg hd, List.enum, List.enumFrom,
    stepProfile, if_neg ha, if_neg hb]
  rw [if_pos hpos]
  simp only [← heq]
  rw [if_neg (lt_irrefl _)]
  exact ⟨rfl, rfl⟩

/-- Witness for C3 (amended): `"Bob Smith"` scores 50 against both
`"John Smith"` (primary) and `"Jane Smith"` (spouse); the primary wins
the tie. -/
theorem claim_C3_witness :
    (validateNames ⟨some "John", some "Smith", some "Jane", some "Smith"⟩
        ["Bob Smith"]).matches'.primaryTaxpayer = true ∧
    (validateNames ⟨some "John", some "Smith", some "Jane", some "Smith"⟩
        ["Bob Smith"]).matches'.spouse = false :=
  claim_C3 ⟨some "John", some "Smith", some "Jane", some "Smith"⟩
    "Bob Smith" "John Smith" "Jane Smith" rfl rfl (by decide)

/-- C4: whenever the two inputs of `compareNames` have equal, non-empty
normalisations (lowercase, strip non-Latin characters, collapse and trim
whitespace), the function short-circuits with score 100 and the
exact-match reason; in particular `compareNames x x` scores 100 for every
non-empty alphabetic `x`. -/
theorem claim_C4 (docName profileName : String)
    (hEq : normalizeString (jsTrim docName) = normalizeString (jsTrim profileName))
    (hNe : normalizeString (jsTrim docName) ≠ "") :
    compareNames docName profileName = ⟨100, "Exact name match"⟩ := by
  have hta : jsTrim docName ≠ "" :=
    fun h => hNe (by rw [h]; exact normalizeString_empty_string)
  have htb : jsTrim profileName ≠ "" :=
    fun h => hNe (hEq.trans (by rw [h]; exact normalizeString_empty_string))
  have ha : docName ≠ "" := fun h => hta (by rw [h]; exact jsTrim_empty_string)
  have hb : profileName ≠ "" := fun h => htb (by rw [h]; exact jsTrim_empty_string)
  simp only [compareNames]
  rw [if_neg (by simp [ha, hb])]
  rw [if_neg (by simp [hta, htb])]
  rw [if_neg (by simp [hNe, hEq ▸ hNe])]
  rw [if_pos hEq]

/-- Witness for C4: the identical pair `("John Smith", "John Smith")`
yields score 100 with the exact-match reason. -/
theorem claim_C4_witness :
    compareNames "John Smith" "John Smith" = ⟨100, "Exact name match"⟩ :=
  claim_C4 "John Smith" "John Smith" rfl (by decide)

/-- C5: `compareNames "John A. Smith" "John Smith"` returns score 100
through the token stage: the normalisations differ (so the exact-match
short-circuit is not taken), the middle token `"a"` is discarded by the
length-`≤ 1` filter leaving `["john", "smith"]` on both sides, first and
last tokens match (2 matching parts against a minimum token count of 2),
and `round (2 / 2 * 100) = 100`. -/
theorem claim_C5 :
    (compareNames "John A. Smith" "John Smith").score = 100 ∧
    normalizeString (jsTrim "John A. Smith") ≠ normalizeString (jsTrim "John Smith") ∧
    nameParts (normalizeString (jsTrim "John A. Smith")) = ["john", "smith"] ∧
    nameParts (normalizeString (jsTrim "John Smith")) = ["john", "smith"] :=
  ⟨rfl, by decide, rfl, rfl⟩

/-- C6, counterexample: with `lastName = "Smith"` and
`spouseLastName = "Jones"`, the assembled spouse candidate is
`"Mary Jones"` (built from `spouseLastName`), not `"Mary Smith"` as the
claim's `spouseFirstName + lastName` recipe would produce. -/
theorem claim_C6_counterexample :
    buildProfileNamesList (safeProfile ⟨some "John", some "Smith", some "Mary", some "Jones"⟩)
      = ["John Smith", "Mary Jones"] ∧
    (["John Smith", "Mary Jones"] : List String) ≠ ["John Smith", "Mary Smith"] :=
  ⟨rfl, by decide⟩

/-- C6, amended: the profile name list holds up to two candidates, the
primary `firstName + " " + lastName` and the spouse
`spouseFirstName + " " + spouseLastName` (not the primary `lastName`),
each trimmed and included only when non-empty. -/
theorem claim_C6 (profileNames : SafeProfileNames) :
    buildProfileNamesList profileNames =
      (if jsTrim (profileNames.firstName ++ " " ++ profileNames.lastName) = "" then []
       else [jsTrim (profileNames.firstName ++ " " ++ profileNames.lastName)])
      ++ (if jsTrim (profileNames.spouseFirstName ++ " " ++ profileNames.spouseLastName) = ""
          then []
          else [jsTrim (profileNames.spouseFirstName ++ " " ++ profileNames.spouseLastName)]) := by
  simp only [buildProfileNamesList, string_length_pos_iff]
  rcases eq_or_ne (jsTrim (profileNames.firstName ++ " " ++ profileNames.lastName)) ""
    with h1 | h1 <;>
    rcases eq_or_ne
      (jsTrim (profileNames.spouseFirstName ++ " " ++ profileNames.spouseLastName)) ""
      with h2 | h2 <;>
    simp [h1, h2]

/-- C7 (code bug): on a profile whose primary name fields are blank and
whose spouse name is non-empty, the spouse name occupies index 0 of the
assembled profile-name list, so `validateNames` reports the spouse-only
match with `primaryTaxpayer = true` and `spouse = false` — the code
violates the invariant (stated by its own comments) that index 0 carries
primary-taxpayer semantics. -/
theorem claim_C7 :
    buildProfileNamesList (safeProfile ⟨some "", some "", some "Mary", some "Jones"⟩)
      = ["Mary Jones"] ∧
    (validateNames ⟨some "", some "", some "Mary", some "Jones"⟩
        ["Mary Jones"]).matches'.primaryTaxpayer = true ∧
    (validateNames ⟨some "", some "", some "Mary", some "Jones"⟩
        ["Mary Jones"]).matches'.spouse = false :=
  ⟨rfl, rfl, rfl⟩

/-- C8: totality and graceful degradation of the embedded core: a
non-object `extractedData` yields the empty name list, a comparison with
a blank side yields score 0 with a non-empty descriptive reason, and an
empty document-name list yields the zero-confidence not-valid result. -/
theorem claim_C8 :
    (∀ extractedData : JSVal, extractedData.isObj = false →
        extractNamesFromDocument extractedData = []) ∧
    (∀ docName profileName : String,
        jsTrim docName = "" ∨ jsTrim profileName = "" →
        (compareNames docName profileName).score = 0 ∧
        (compareNames docName profileName).reason ≠ "") ∧
    (∀ (profileNames : ProfileNames) (documentNames : List String), documentNames = [] →
        validateNames profileNames documentNames =
          ⟨false, 0, ⟨false, false⟩,
           ⟨[], buildProfileNamesList (safeProfile profileNames),
            "No names found in document"⟩⟩) := by
  refine ⟨?_, ?_, ?_⟩
  · intro extractedData h
    simp only [extractNamesFromDocument]
    rw [if_pos h]
  · intro docName profileName h
    rcases compareNames_blank docName profileName h with heq | heq <;> rw [heq] <;>
      exact ⟨rfl, by decide⟩
  · intro profileNames documentNames h
    subst h
    simp [validateNames]

/-- Witness for C8 at concrete degenerate inputs: a `null` document, a
blank document name, and an empty document list. -/
theorem claim_C8_witness :
    extractNamesFromDocument JSVal.null = [] ∧
    (compareNames " " "Jane Doe").score = 0 ∧
    validateNames ⟨some "Jane", some "Doe", none, none⟩ [] =
      ⟨false, 0, ⟨false, false⟩, ⟨[], ["Jane Doe"], "No names found in document"⟩⟩ :=
  ⟨claim_C8.1 JSVal.null rfl,
   (claim_C8.2.1 " " "Jane Doe" (Or.inl (by decide))).1,
   claim_C8.2.2 ⟨some "Jane", some "Doe", none, none⟩ [] rfl⟩

/-- C9, counterexample: on the claim's own example input the reason
string is `"No names in tax return profile"`, not
`"no names in profile"`. -/
theorem claim_C9_counterexample :
    (validateNames ⟨some "", some "", none, none⟩ ["Jane Doe"]).details.reason
      = "No names in tax return profile" ∧
    ("No names in tax return profile" : String) ≠ "no names in profile" :=
  ⟨rfl, by decide⟩

/-- C9, amended: for every non-empty document-name list, when the
assembled profile-name list is empty, `validateNames` returns the
not-valid zero-confidence result with both match flags false and reason
`"No names in tax return profile"`. -/
theorem claim_C9 (profileNames : ProfileNames) (documentNames : List String)
    (hdocs : documentNames ≠ [])
    (hprof : buildProfileNamesList (safeProfile profileNames) = []) :
    validateNames profileNames documentNames =
      ⟨false, 0, ⟨false, false⟩,
       ⟨documentNames, [], "No names in tax return profile"⟩⟩ := by
  simp only [validateNames, hprof]
  rw [if_neg hdocs]
  simp

/-- Witness for C9 (amended) at the spec's example
`validateNames {firstName: "", lastName: ""} ["Jane Doe"]`. -/
theorem claim_C9_witness :
    validateNames ⟨some "", some "", none, none⟩ ["Jane Doe"] =
      ⟨false, 0, ⟨false, false⟩,
       ⟨["Jane Doe"], [], "No names in tax return profile"⟩⟩ :=
  claim_C9 ⟨some "", some "", none, none⟩ ["Jane Doe"] (by simp) rfl

/-- C10: a whitespace-only (hence truthy) `employeeName` string both
contributes no employee name (its trim is filtered out) and suppresses
the `employerName` fallback, so the extraction result is the same as if
both fields were absent; the `recipientName` field is arbitrary. -/
theorem claim_C10 (employeeWS employer : String) (recipientName : JSVal)
    (hws : employeeWS ≠ "") (htrim : jsTrim employeeWS = "") (_hemp : employer ≠ "") :
    extractNamesFromDocument (.objV (.strV employeeWS) recipientName (.strV employer)) =
      extractNamesFromDocument (.objV (.strV "") recipientName (.strV "")) := by
  simp only [extractNamesFromDocument, JSVal.isObj, JSVal.truthy, JSVal.isStr, JSVal.getStr]
  simp [hws, htrim]

/-- Witness for C10: employee `"   "` with employer `"Acme Corp"` and
recipient `"Jane Doe"` extracts only the recipient name. -/
theorem claim_C10_witness :
    extractNamesFromDocument (.objV (.strV "   ") (.strV "Jane Doe") (.strV "Acme Corp")) =
      extractNamesFromDocument (.objV (.strV "") (.strV "Jane Doe") (.strV "")) ∧
    extractNamesFromDocument (.objV (.strV "   ") (.strV "Jane Doe") (.strV "Acme Corp")) =
      ["Jane Doe"] :=
  ⟨claim_C10 "   " "Acme Corp" (.strV "Jane Doe") (by decide) (by decide) (by decide), rfl⟩
